import Mathlib

/-!
Verification of the book-finder chat pipeline.

This file gives a shallow embedding of the core of the application:
the Usage & History store (`src/hooks/useChatDatabase.ts`), the cover
URL derivation (`generateCoverUrls` in `src/lib/utils.ts`), and the
chat pipeline of `src/components/FilterSidebar.tsx` (`BookChatbot`):
`shouldExtractBooks`, `extractBooksWithGemini`, `extractAndSearchBooks`,
`searchBooksFromOpenLibrary`, `callGeminiAPI` and `handleSendMessage`.

External collaborators (the Gemini completion endpoint, the OpenLibrary
search endpoint, and the Supabase store) are modelled as oracles in an
environment record; a consulted oracle is counted as one call attempt,
matching the observable behaviour of the source.  JavaScript string
operations are modelled character-wise over `List Char`, including the
truthiness conventions of the source (empty string, `0`, `null` and
`undefined` are falsy).
-/

/-! ### JavaScript-style character and string helpers -/

/-- Whitespace as matched by the regex class and by `String.prototype.trim`. -/
def wsChar (c : Char) : Bool :=
  c = ' ' || c = '\t' || c = '\n' || c = '\r' || c = '\x0b' || c = '\x0c'

/-- Character-wise lowercase, modelling `toLowerCase` on the ASCII range. -/
def lowerL (l : List Char) : List Char := l.map Char.toLower

/-- Character-wise uppercase, modelling `toUpperCase` on the ASCII range. -/
def upperL (l : List Char) : List Char := l.map Char.toUpper

/-- Model of `String.prototype.trim`: drop whitespace from both ends. -/
def jsTrimL (l : List Char) : List Char :=
  ((l.dropWhile wsChar).reverse.dropWhile wsChar).reverse

/-- Trimming at the `String` level. -/
def jsTrimS (s : String) : String := ⟨jsTrimL s.data⟩

/-- Does `l` start with `p`? -/
def startsL : List Char → List Char → Bool
  | [], _ => true
  | _ :: _, [] => false
  | a :: as, b :: bs => a = b && startsL as bs

/-- Model of `String.prototype.includes`: does `l` contain `p` as a contiguous run? -/
def hasSub (l p : List Char) : Bool :=
  match l with
  | [] => startsL p []
  | _ :: rest => startsL p l || hasSub rest p

/-- Model of `String.prototype.replace` with a plain-string pattern and empty
replacement: remove the first occurrence of `p` from `l`. -/
def replFirst (p : List Char) : List Char → List Char
  | [] => []
  | c :: cs =>
    if p ≠ [] ∧ startsL p (c :: cs) then List.drop p.length (c :: cs)
    else c :: replFirst p cs

theorem startsL_iff (p l : List Char) : startsL p l = true ↔ ∃ r, l = p ++ r := by
  induction p generalizing l with
  | nil => simp [startsL]
  | cons a as ih =>
    cases l with
    | nil =>
      simp [startsL]
    | cons b bs =>
      simp only [startsL, Bool.and_eq_true, decide_eq_true_eq, ih, List.cons_append,
        List.cons.injEq]
      constructor
      · rintro ⟨h1, r, h2⟩; exact ⟨r, h1.symm, h2⟩
      · rintro ⟨r, h1, h2⟩; exact ⟨h1.symm, r, h2⟩

theorem hasSub_iff (l p : List Char) : hasSub l p = true ↔ ∃ u v, l = u ++ p ++ v := by
  induction l with
  | nil =>
    simp only [hasSub, startsL_iff]
    constructor
    · rintro ⟨r, h⟩
      exact ⟨[], r, by simpa using h⟩
    · rintro ⟨u, v, h⟩
      rcases List.append_eq_nil.mp (List.append_eq_nil.mp h.symm).1 with ⟨hu, hp⟩
      exact ⟨v, by simp [hp, (List.append_eq_nil.mp h.symm).2]⟩
  | cons c cs ih =>
    simp only [hasSub, Bool.or_eq_true, startsL_iff, ih]
    constructor
    · rintro (⟨r, h⟩ | ⟨u, v, h⟩)
      · exact ⟨[], r, by simp [h]⟩
      · exact ⟨c :: u, v, by simp [h]⟩
    · rintro ⟨u, v, h⟩
      cases u with
      | nil => exact Or.inl ⟨v, by simpa using h⟩
      | cons x xs =>
        right
        refine ⟨xs, v, ?_⟩
        have := h
        simp only [List.cons_append] at this
        exact (List.cons.injEq .. ▸ this).2

/-! ### Usage & History store (`src/hooks/useChatDatabase.ts`)

Each hook function first short-circuits when there is no authenticated
user or the `isTableMissing` flag is set, and otherwise performs one
Supabase call.  The outcome of that call is an oracle argument
(`StoreOutcome`): either data, an error with a Postgres error code
(`"42P01"` is "relation does not exist"), or a thrown exception caught
by the surrounding `try`.  Each function returns its result, the new
`isTableMissing` flag, and whether the store operation was attempted. -/

/-- Outcome of a single Supabase round trip as observed by the hook. -/
inductive StoreOutcome (α : Type) where
  | ok (a : α)
  | err (code : String)
  | thrown
deriving DecidableEq

/-- A row of the `chat_usage` table. -/
structure UsageRow where
  userId : String
  date : String
  count : Nat
deriving DecidableEq

/-- A row of the `chat_messages` table. -/
structure ChatRow where
  id : String
  userId : String
  role : String
  content : String
  books : Option String
  created_at : Int
deriving DecidableEq

/-- The in-memory `Message` shape produced by `loadChatHistory`.  The
`books` field of a row is a JSON payload decoded at this boundary; the
model carries the serialized payload itself (an empty string is falsy
in JavaScript, so it decodes to `undefined`). -/
structure DbMessage where
  id : String
  role : String
  content : String
  books : Option String
  timestamp : Int
deriving DecidableEq

/-- Model of `checkDailyUsage`: 0 without a user or with the flag set; on a
`42P01` error set the flag and return 0; otherwise `data?.count || 0`. -/
def checkDailyUsage (userPresent missing : Bool) (resp : StoreOutcome (Option Nat)) :
    Nat × Bool × Bool :=
  if userPresent = false ∨ missing = true then (0, missing, false)
  else
    match resp with
    | .ok v => (v.getD 0, missing, true)
    | .err code => if code = "42P01" then (0, true, true) else (0, missing, true)
    | .thrown => (0, missing, true)

/-- Model of `updateDailyUsage`: returns `currentCount` unchanged without a user
or with the flag set, or on a `42P01` error (setting the flag), or when
the upsert throws; otherwise returns `currentCount + 1` (including on a
non-`42P01` error, as in the source). -/
def updateDailyUsage (userPresent missing : Bool) (currentCount : Nat)
    (resp : StoreOutcome Unit) : Nat × Bool × Bool :=
  if userPresent = false ∨ missing = true then (currentCount, missing, false)
  else
    match resp with
    | .ok _ => (currentCount + 1, missing, true)
    | .err code =>
      if code = "42P01" then (currentCount, true, true)
      else (currentCount + 1, missing, true)
    | .thrown => (currentCount, missing, true)

/-- Row-to-message conversion done by `loadChatHistory`. -/
def rowToMessage (r : ChatRow) : DbMessage :=
  ⟨r.id, r.role, r.content, if r.books = some "" then none else r.books, r.created_at⟩

/-- Model of `loadChatHistory`: empty without a user or with the flag set; on a
`42P01` error set the flag and return `[]`; on any other error or a
thrown exception return `[]`; on data, map rows to messages. -/
def loadChatHistory (userPresent missing : Bool) (resp : StoreOutcome (List ChatRow)) :
    List DbMessage × Bool × Bool :=
  if userPresent = false ∨ missing = true then ([], missing, false)
  else
    match resp with
    | .ok rows => (rows.map rowToMessage, missing, true)
    | .err code => if code = "42P01" then ([], true, true) else ([], missing, true)
    | .thrown => ([], missing, true)

/-- Model of `saveChatMessage`: best-effort insert; only the flag and the
attempt are observable. -/
def saveChatMessage (userPresent missing : Bool) (resp : StoreOutcome Unit) :
    Bool × Bool :=
  if userPresent = false ∨ missing = true then (missing, false)
  else
    match resp with
    | .ok _ => (missing, true)
    | .err code => if code = "42P01" then (true, true) else (missing, true)
    | .thrown => (missing, true)

/-! #### Honest store semantics

For runs against a working store, the oracle outcome is computed from
an explicit table content. -/

/-- Content of the unique `(user_id, date)` row, if any. -/
def lookupUsage (uid d : String) : List UsageRow → Option Nat
  | [] => none
  | r :: rs => if r.userId = uid ∧ r.date = d then some r.count else lookupUsage uid d rs

/-- Effect of the Supabase upsert with conflict target `user_id,date`:
replace the conflicting row, or append a fresh one. -/
def upsertUsage (uid d : String) (c : Nat) : List UsageRow → List UsageRow
  | [] => [⟨uid, d, c⟩]
  | r :: rs =>
    if r.userId = uid ∧ r.date = d then ⟨uid, d, c⟩ :: rs
    else r :: upsertUsage uid d c rs

/-- The answer of the store to the `chat_usage` select for `(uid, d)`. -/
def usageResp (rows : List UsageRow) (uid d : String) : StoreOutcome (Option Nat) :=
  .ok (lookupUsage uid d rows)

/-- A run of `updateDailyUsage` against a working store: the returned
count together with the table after the upsert of `currentCount + 1`. -/
def runUpdateUsage (rows : List UsageRow) (uid d : String) (currentCount : Nat) :
    Nat × List UsageRow :=
  ((updateDailyUsage true false currentCount (.ok ())).1,
    upsertUsage uid d (currentCount + 1) rows)

/-- Ordering of `chat_messages` rows by `created_at` (ascending). -/
def rowTsLe (a b : ChatRow) : Prop := a.created_at ≤ b.created_at

instance : DecidableRel rowTsLe := fun a b => Int.decLe a.created_at b.created_at

instance : IsTotal ChatRow rowTsLe := ⟨fun a b => Int.le_total a.created_at b.created_at⟩

instance : IsTrans ChatRow rowTsLe := ⟨fun _ _ _ h1 h2 => Int.le_trans h1 h2⟩

/-- The answer of the store to the `chat_messages` select: rows of the user,
ordered by `created_at` ascending, limited to 20. -/
def historyQuery (rows : List ChatRow) (uid : String) : List ChatRow :=
  ((rows.filter (fun r => r.userId == uid)).insertionSort rowTsLe).take 20

/-- A run of `loadChatHistory` against a working store. -/
def runLoadHistory (rows : List ChatRow) (uid : String) : List DbMessage :=
  (loadChatHistory true false (.ok (historyQuery rows uid))).1

/-! ### Raw OpenLibrary records and JavaScript truthiness -/

/-- A loosely-typed record from the OpenLibrary search endpoint; every
field is individually optional. -/
structure RawDoc where
  key : Option String := none
  title : Option String := none
  author_name : Option (List String) := none
  subtitle : Option String := none
  cover_i : Option Nat := none
  first_publish_year : Option Int := none
  subject : Option (List String) := none
  number_of_pages_median : Option Int := none
  publisher : Option (List String) := none
  language : Option (List String) := none
  edition_count : Option Int := none
  isbn : Option (List String) := none
  edition_key : Option (List String) := none
deriving DecidableEq

/-- Truthiness of an optional string: `undefined` and `""` are falsy. -/
def truthyStr : Option String → Bool
  | some s => s ≠ ""
  | none => false

/-- Truthiness of an optional number: `undefined` and `0` are falsy. -/
def truthyNat : Option Nat → Bool
  | some n => n ≠ 0
  | none => false

/-- Template-literal rendering of an optional string (`undefined` prints
as the word). -/
def showOptStr : Option String → String
  | some s => s
  | none => "undefined"

/-- Template-literal rendering of an optional number. -/
def showOptNat : Option Nat → String
  | some n => toString n
  | none => "undefined"

/-! ### Cover URL derivation (`generateCoverUrls` in `src/lib/utils.ts`) -/

/-- The first ISBN when `doc.isbn` is a non-empty array, else `null`. -/
def isbnOf (doc : RawDoc) : Option String :=
  match doc.isbn with
  | some (x :: _) => some x
  | _ => none

/-- The work OLID: `doc.key` with the first occurrences of `/works/` and
then `/books/` removed, or `null` when `doc.key` is absent. -/
def olidOf (doc : RawDoc) : Option String :=
  match doc.key with
  | some k => some ⟨replFirst "/books/".data (replFirst "/works/".data k.data)⟩
  | none => none

/-- First edition key when `doc.edition_key` is a non-empty array. -/
def editionKeyOf (doc : RawDoc) : Option String :=
  match doc.edition_key with
  | some (x :: _) => some x
  | _ => none

/-- ISBN-based cover URL. -/
def isbnCoverUrl (i : String) : String :=
  "https://covers.openlibrary.org/b/isbn/" ++ i ++ "-L.jpg?default=false"

/-- Cover-id-based cover URL (`generateCoverUrls` variant). -/
def idCoverUrl (c : Nat) : String :=
  "https://covers.openlibrary.org/b/id/" ++ toString c ++ "-L.jpg?default=false"

/-- OLID-based cover URL. -/
def olidCoverUrl (o : String) : String :=
  "https://covers.openlibrary.org/b/olid/" ++ o ++ "-L.jpg?default=false"

/-- Model of `generateCoverUrls`: collect candidates in the fixed priority
ISBN, cover id, work OLID (when distinct from the ISBN), edition key;
return `null` when no candidate was produced. -/
def generateCoverUrls (doc : RawDoc) : Option (List String) :=
  let isbn := isbnOf doc
  let olid := olidOf doc
  let u1 : List String :=
    match isbn with
    | some i => if i ≠ "" then [isbnCoverUrl i] else []
    | none => []
  let u2 : List String :=
    match doc.cover_i with
    | some c => if c ≠ 0 then [idCoverUrl c] else []
    | none => []
  let u3 : List String :=
    match olid, isbn with
    | some o, some i => if o ≠ "" ∧ o ≠ i then [olidCoverUrl o] else []
    | some o, none => if o ≠ "" then [olidCoverUrl o] else []
    | none, _ => []
  let u4 : List String :=
    match editionKeyOf doc with
    | some e => [olidCoverUrl e]
    | none => []
  let urls := u1 ++ u2 ++ u3 ++ u4
  if urls = [] then none else some urls

/-! ### Chat pipeline data model (`BookChatbot` in `FilterSidebar.tsx`) -/

/-- The canonical `Book` shape produced by the chat pipeline. -/
structure Book where
  id : String
  title : String
  authors : List String
  description : String
  cover : Option String
  coverUrls : Option (List String)
  publishedDate : Option Int
  categories : List String
  pageCount : Option Int
  infoLink : Option String
  publisher : Option String
  language : Option String
deriving DecidableEq

/-- Message role, a closed set. -/
inductive Role where
  | user
  | assistant
deriving DecidableEq

/-- An in-memory chat `Message`. -/
structure Message where
  id : String
  role : Role
  content : String
  books : Option (List Book)
  timestamp : Nat
deriving DecidableEq

/-! ### Catalog search (`searchBooksFromOpenLibrary`) -/

/-- Large cover image URL used by the chat pipeline. -/
def chatCoverL (c : Nat) : String :=
  "https://covers.openlibrary.org/b/id/" ++ toString c ++ "-L.jpg"

/-- Medium cover image URL used by the chat pipeline. -/
def chatCoverM (c : Nat) : String :=
  "https://covers.openlibrary.org/b/id/" ++ toString c ++ "-M.jpg"

/-- The filter of `searchBooksFromOpenLibrary`: keep only records with
a (truthy) cover id, a first-publish year that is absent, `0`, or at
most 10 years old, and a (truthy) title longer than 2 characters. -/
def docFilter (currentYear : Int) (doc : RawDoc) : Bool :=
  let hasImage := truthyNat doc.cover_i
  let isRecent :=
    match doc.first_publish_year with
    | none => true
    | some y => y = 0 || y ≥ currentYear - 10
  let hasTitle :=
    match doc.title with
    | some t => t ≠ "" && t.length > 2
    | none => false
  hasImage && isRecent && hasTitle

/-- The sort comparator of `searchBooksFromOpenLibrary`: newer first,
then more editions first (`a` may stay before `b` when this holds). -/
def docSortLe (a b : RawDoc) : Prop :=
  b.first_publish_year.getD 0 < a.first_publish_year.getD 0 ∨
    (a.first_publish_year.getD 0 = b.first_publish_year.getD 0 ∧
      b.edition_count.getD 0 ≤ a.edition_count.getD 0)

instance : DecidableRel docSortLe := fun a b => by
  unfold docSortLe; infer_instance

/-- Record-to-`Book` conversion done by `searchBooksFromOpenLibrary`. -/
def docToChatBook (doc : RawDoc) : Book where
  id :=
    match doc.key with
    | some k => if k ≠ "" then k else showOptStr doc.title ++ "-" ++ showOptNat doc.cover_i
    | none => showOptStr doc.title ++ "-" ++ showOptNat doc.cover_i
  title :=
    match doc.title with
    | some t => if t ≠ "" then t else "Unknown Title"
    | none => "Unknown Title"
  authors := doc.author_name.getD []
  description :=
    match doc.subtitle with
    | some s => if s ≠ "" then s else ""
    | none => ""
  cover := if truthyNat doc.cover_i then some (chatCoverL (doc.cover_i.getD 0)) else none
  coverUrls :=
    if truthyNat doc.cover_i then
      some [chatCoverL (doc.cover_i.getD 0), chatCoverM (doc.cover_i.getD 0)]
    else none
  publishedDate := doc.first_publish_year
  categories := (doc.subject.getD []).take 3
  pageCount := doc.number_of_pages_median
  infoLink :=
    match doc.key with
    | some k => if k ≠ "" then some ("https://openlibrary.org" ++ k) else none
    | none => none
  publisher := doc.publisher.bind List.head?
  language := doc.language.bind List.head?

/-- Outcome of one fetch strategy: `none` models a failed fetch or a
response without a `docs` field; `some docs` models parsed records. -/
abbrev StrategyResp := Option (List RawDoc)

/-- The strategy loop of `searchBooksFromOpenLibrary`: take the first
of the three responses that yields a non-empty `docs` array, together
with the number of fetches issued. -/
def pickDocs (resp : Nat → StrategyResp) : List RawDoc × Nat :=
  match resp 0 with
  | some (d :: ds) => (d :: ds, 1)
  | _ =>
    match resp 1 with
    | some (d :: ds) => (d :: ds, 2)
    | _ =>
      match resp 2 with
      | some (d :: ds) => (d :: ds, 3)
      | _ => ([], 3)

/-- Model of `searchBooksFromOpenLibrary` for one query: fetch, filter, sort,
take the top 3, convert to `Book`s; also report the fetch count. -/
def searchBooksFromOpenLibrary (currentYear : Int) (resp : Nat → StrategyResp) :
    List Book × Nat :=
  let filtered := ((pickDocs resp).1.filter (docFilter currentYear)).insertionSort docSortLe
  ((filtered.take 3).map docToChatBook, (pickDocs resp).2)

/-! ### Completion client fallback (`callGeminiAPI` in `FilterSidebar.tsx`) -/

/-- Fallback text for a model/endpoint problem. -/
def modelFallbackMsg : String :=
  "🔧 **Model Updated**: I\x27ve updated to use the latest Gemini model (gemini-1.5-flash). Please try your question again!"

/-- Fallback text for an API-key problem. -/
def keyFallbackMsg : String :=
  "❌ **API Key Issue**: Please check your Gemini API key configuration. Make sure VITE_GEMINI_API_KEY is set correctly in your .env.local file.\n\n🔗 Get a free API key from: https://makersuite.google.com/app/apikey"

/-- Fallback text for a rate limit. -/
def quotaFallbackMsg : String :=
  "⚠️ **Rate Limit**: You\x27ve hit the API rate limit. Please wait a few minutes before trying again."

/-- Fallback text for a connection problem. -/
def networkFallbackMsg : String :=
  "🌐 **Connection Issue**: Please check your internet connection and try again."

/-- Generic fallback text. -/
def genericFallbackMsg : String :=
  "🤖 **AI Service Temporarily Unavailable**: I\x27m having trouble connecting right now. Please try again in a moment!\n\n💡 In the meantime, try searching for books using the search bar above."

/-- The error dispatch of `callGeminiAPI`: inspect the error message
and synthesize the matching typed fallback response. -/
def geminiFallback (errMsg : String) : String :=
  if hasSub errMsg.data "Model not available".data ∨ hasSub errMsg.data "404".data ∨
      hasSub errMsg.data "model".data then modelFallbackMsg
  else if hasSub errMsg.data "API key".data then keyFallbackMsg
  else if hasSub errMsg.data "quota".data ∨ hasSub errMsg.data "limit".data then
    quotaFallbackMsg
  else if hasSub errMsg.data "network".data ∨ hasSub errMsg.data "fetch".data then
    networkFallbackMsg
  else genericFallbackMsg

/-! ### Relevance gate (`shouldExtractBooks`) -/

/-- The deterministic fallback heuristic used when the classifier call
fails: the lowercased reply contains `recommend`, or the reply contains
the substring `**"`, or the lowercased user message contains
`books like`. -/
def shouldExtractFallback (assistantResponse userMessage : String) : Bool :=
  hasSub (lowerL assistantResponse.data) "recommend".data ||
    hasSub assistantResponse.data "**\"".data ||
    hasSub (lowerL userMessage.data) "books like".data

/-- Model of `shouldExtractBooks`: ask the classifier (one completion attempt);
a successful answer counts as positive exactly when it is `YES` after
trimming and uppercasing; on failure fall back to the heuristic. -/
def shouldExtractBooksM (classifier : Option String) (assistantResponse userMessage : String) :
    Bool :=
  match classifier with
  | some resp => upperL (jsTrimL resp.data) = "YES".data
  | none => shouldExtractFallback assistantResponse userMessage

/-! ### Deterministic extraction layers -/

/-- The middle piece of the quoted-title pattern: given the characters
between `by` and the terminating `**` (all of them non-`*`), return the
author capture of `\s+([^*]+?)\*\*`, if the piece matches.  The
whitespace run must be non-empty; the lazy capture takes everything
after the maximal whitespace prefix, except that when the whole piece
is whitespace the capture backtracks to the final character. -/
def authorCapture (m : List Char) : Option (List Char) :=
  if m.takeWhile wsChar = [] then none
  else
    match m.dropWhile wsChar with
    | [] => if 2 ≤ m.length then some [m.getLastD ' '] else none
    | a :: rest => some (a :: rest)

/-- Try to match `\*\*"([^"]+)"\s+by\s+([^*]+?)\*\*` (case-insensitive
on `by`) at the head of the text; return the two captures and the
remainder after the match. -/
def p1At (cs : List Char) : Option (String × String × List Char) :=
  match cs with
  | '*' :: '*' :: '"' :: rest =>
    let title := rest.takeWhile (· ≠ '"')
    if title = [] then none
    else
      match rest.dropWhile (· ≠ '"') with
      | '"' :: r2 =>
        match r2.dropWhile wsChar with
        | b :: y :: r4 =>
          if ((b = 'b' ∨ b = 'B') ∧ (y = 'y' ∨ y = 'Y')) ∧
              (r2.takeWhile wsChar ≠ []) then
            let piece := r4.takeWhile (· ≠ '*')
            match authorCapture piece, r4.dropWhile (· ≠ '*') with
            | some author, '*' :: '*' :: r6 => some (⟨title⟩, ⟨author⟩, r6)
            | _, _ => none
          else none
        | _ => none
      | _ => none
  | _ => none

/-- Global scan for the quoted-title pattern, advancing past each match
(`fuel` bounds the scan; callers pass the text length). -/
def scanP1 : Nat → List Char → List (String × String)
  | 0, _ => []
  | _ + 1, [] => []
  | fuel + 1, c :: cs =>
    match p1At (c :: cs) with
    | some (t, a, rest) => (t, a) :: scanP1 fuel rest
    | none => scanP1 fuel cs

/-- Try to match `"([A-Za-z][^"]{5,50})"` at the head of the text. -/
def qAt (cs : List Char) : Option (String × List Char) :=
  match cs with
  | '"' :: c :: rest =>
    if ('A' ≤ c ∧ c ≤ 'Z') ∨ ('a' ≤ c ∧ c ≤ 'z') then
      let run := rest.takeWhile (· ≠ '"')
      match rest.dropWhile (· ≠ '"') with
      | '"' :: r2 =>
        if 5 ≤ run.length ∧ run.length ≤ 50 then some (⟨c :: run⟩, r2) else none
      | _ => none
    else none
  | _ => none

/-- Global scan for generic quoted substrings. -/
def scanQ : Nat → List Char → List String
  | 0, _ => []
  | _ + 1, [] => []
  | fuel + 1, c :: cs =>
    match qAt (c :: cs) with
    | some (t, rest) => t :: scanQ fuel rest
    | none => scanQ fuel cs

/-- Model of `Set.add` on strings: JavaScript sets are insertion-ordered and
deduplicate by value. -/
def addU (l : List String) (s : String) : List String :=
  if s ∈ l then l else l ++ [s]

/-- The fixed lookup table of well-known titles. -/
def commonBooks : List (List String × String) :=
  [(["Atomic Habits", "atomic habits"], "Atomic Habits James Clear"),
   (["The Power of Now"], "The Power of Now Eckhart Tolle"),
   (["Mindset", "mindset"], "Mindset Carol Dweck"),
   (["Educated"], "Educated Tara Westover"),
   (["Sapiens"], "Sapiens Yuval Noah Harari")]

/-- Concatenation of a list of lists (the `allBooks.push(...books)` loop). -/
def catLists : List (List α) → List α
  | [] => []
  | l :: ls => l ++ catLists ls

theorem mem_catLists {a : α} {ls : List (List α)} :
    a ∈ catLists ls ↔ ∃ l ∈ ls, a ∈ l := by
  induction ls with
  | nil => simp [catLists]
  | cons l ls ih => simp [catLists, ih]

/-- Outcome of the `extractBooksWithGemini` completion call: the call
may fail, the response may not parse as a JSON array, or it yields a
list of candidate strings. -/
inductive ExtractorOutcome where
  | failed
  | unparseable
  | parsed (candidates : List String)

/-- Environment of one conversation turn: the outcomes of the external
calls the turn may issue, plus the ambient clock. -/
structure TurnEnv where
  completion : Except String String
  classifier : Option String
  extractor : ExtractorOutcome
  catalog : String → Nat → StrategyResp
  now : Nat
  currentYear : Int

/-- Result of the Extraction Engine: the resolved books, the number of
completion calls attempted inside extraction, and the number of catalog
fetches issued. -/
structure ExtractOut where
  books : List Book
  attempts : Nat
  fetches : Nat

/-- Step 3 of the Extraction Engine: union the four candidate layers —
the parsed completion-call result (truncated to 3), the quoted-title
markdown pattern matches (trimmed titles longer than 2), the well-known
title lookup table, and the generic quoted-substring scan (trimmed
length strictly between 5 and 50, no `?` or `!`, only while fewer than
5 candidates) — into an insertion-ordered deduplicated list. -/
def extractCandidates (env : TurnEnv) (text : String) : List String :=
  let geminiExtracted : List String :=
    match env.extractor with
    | .parsed candidates => candidates.take 3
    | _ => []
  let c1 := geminiExtracted.foldl addU []
  let c2 := (scanP1 text.data.length text.data).foldl
    (fun acc ta =>
      let t := jsTrimS ta.1
      let a := jsTrimS ta.2
      if t ≠ "" ∧ 2 < t.length then addU acc (t ++ " " ++ a) else acc) c1
  let c3 := commonBooks.foldl
    (fun acc m =>
      if m.1.any (fun kw => hasSub (lowerL text.data) (lowerL kw.data)) then
        addU acc m.2
      else acc) c2
  (scanQ text.data.length text.data).foldl
    (fun acc cap =>
      let p := jsTrimS cap
      if p ≠ "" ∧ 5 < p.length ∧ p.length < 50 ∧ p.data.contains '?' = false ∧
          p.data.contains '!' = false ∧ acc.length < 5 then addU acc p
      else acc) c3

/-- Model of `extractAndSearchBooks`: gate (one completion attempt), then union
the candidate layers (one more completion attempt), then resolve the
first 3 candidates against the catalog, keeping the best match of each
search and capping the final list at 3. -/
def extractAndSearchBooks (env : TurnEnv) (text userMessage : String) : ExtractOut :=
  if shouldExtractBooksM env.classifier text userMessage = false then
    ⟨[], 1, 0⟩
  else
    let queries := (extractCandidates env text).take 3
    let searches := queries.map (fun q => searchBooksFromOpenLibrary env.currentYear (env.catalog q))
    let allBooks := catLists (searches.map (fun r => r.1.take 1))
    ⟨allBooks.take 3, 2, (searches.map (fun r => r.2)).sum⟩

/-! ### Conversation controller (`handleSendMessage`) -/

/-- The daily chat cap. -/
def DAILY_LIMIT : Nat := 10

/-- Per-session controller state read by `handleSendMessage`. -/
structure ChatState where
  messages : List Message
  input : String
  isLoading : Bool
  dailyUsage : Nat
  userPresent : Bool

/-- The user `Message` appended by a non-rejected submission. -/
def mkUserMsg (env : TurnEnv) (st : ChatState) : Message :=
  ⟨"user-" ++ toString env.now, Role.user, jsTrimS st.input, none, env.now⟩

/-- Model of `callGeminiAPI`: the completion outcome, with failures converted to
a typed fallback response (this function never throws). -/
def turnResponse (env : TurnEnv) : String :=
  match env.completion with
  | .ok r => r
  | .error e => geminiFallback e

/-- The assistant `Message` built from the reply and the extracted
books (`undefined` rather than an empty list when none were found). -/
def mkAssistantMsg (env : TurnEnv) (st : ChatState) : Message :=
  let ex := extractAndSearchBooks env (turnResponse env) (mkUserMsg env st).content
  ⟨"assistant-" ++ toString env.now, Role.assistant, turnResponse env,
    if 0 < ex.books.length then some ex.books else none, env.now⟩

/-- Observable outcome of one submission. -/
structure TurnOut where
  messages : List Message
  toasts : Nat
  completionAttempts : Nat
  extractionAttempts : Nat
  catalogFetches : Nat
  saved : List Message

/-- Model of `handleSendMessage`: reject silently on empty input, missing user
or an in-flight turn; reject with a notice at the daily cap; otherwise
append the user message, call the completion client (falling back on
failure), run extraction on the reply, and append the assistant
message.  Both turn messages are persisted best-effort. -/
def handleSendMessage (env : TurnEnv) (st : ChatState) : TurnOut :=
  if jsTrimS st.input = "" ∨ st.userPresent = false ∨ st.isLoading = true then
    ⟨st.messages, 0, 0, 0, 0, []⟩
  else if DAILY_LIMIT ≤ st.dailyUsage then
    ⟨st.messages, 1, 0, 0, 0, []⟩
  else
    let userMsg := mkUserMsg env st
    let ex := extractAndSearchBooks env (turnResponse env) userMsg.content
    ⟨st.messages ++ [userMsg, mkAssistantMsg env st], 0, 1, ex.attempts, ex.fetches,
      [userMsg, mkAssistantMsg env st]⟩

/-! ## Claims -/

/-- Claim C4: for every environment, assistant reply and user message,
the final book list returned by the Extraction Engine contains at most
3 entries, no matter how many candidates the extraction layers
produced. -/
theorem final_book_list_at_most_three (env : TurnEnv) (text userMessage : String) :
    (extractAndSearchBooks env text userMessage).books.length ≤ 3 := by
  unfold extractAndSearchBooks
  split
  · simp
  · simp [List.length_take]

/-- Claim C3: whenever the relevance gate decides negative — the
classifier answered something other than `YES`, or the classifier call
failed and the deterministic heuristic does not fire — the Extraction
Engine returns an empty book list immediately and issues zero catalog
fetches. -/
theorem gate_negative_empty_and_no_catalog (env : TurnEnv) (text userMessage : String)
    (hgate : (∃ r, env.classifier = some r ∧ upperL (jsTrimL r.data) ≠ "YES".data) ∨
      (env.classifier = none ∧ shouldExtractFallback text userMessage = false)) :
    (extractAndSearchBooks env text userMessage).books = [] ∧
      (extractAndSearchBooks env text userMessage).fetches = 0 := by
  have h : shouldExtractBooksM env.classifier text userMessage = false := by
    rcases hgate with ⟨r, hr, hne⟩ | ⟨hn, hf⟩
    · simp only [shouldExtractBooksM, hr]
      exact decide_eq_false hne
    · simp only [shouldExtractBooksM, hn]
      exact hf
  unfold extractAndSearchBooks
  rw [if_pos h]
  exact ⟨rfl, rfl⟩

/-- A concrete turn environment whose classifier answers `NO`. -/
def envGateNo : TurnEnv :=
  ⟨Except.ok "hello there", some "NO", ExtractorOutcome.failed, fun _ _ => none, 0, 2026⟩

/-- Witness for claim C3 at a concrete negative-gate environment. -/
theorem gate_negative_empty_and_no_catalog_witness :
    (extractAndSearchBooks envGateNo "hello there" "hi").books = [] ∧
      (extractAndSearchBooks envGateNo "hello there" "hi").fetches = 0 :=
  gate_negative_empty_and_no_catalog envGateNo "hello there" "hi"
    (Or.inl ⟨"NO", rfl, by decide⟩)

/-- Claim C9: a record with only a (truthy) numeric cover id — no ISBN,
no work key, no edition key — derives exactly one cover URL, built from
that id; a record with none of the identifying fields derives `null`. -/
theorem cover_url_only_id_or_nothing (doc : RawDoc) :
    (∀ c, isbnOf doc = none → doc.key = none → editionKeyOf doc = none →
      doc.cover_i = some c → c ≠ 0 → generateCoverUrls doc = some [idCoverUrl c]) ∧
    (isbnOf doc = none → doc.key = none → editionKeyOf doc = none →
      doc.cover_i = none → generateCoverUrls doc = none) := by
  constructor
  · intro c hisbn hkey hek hc hc0
    unfold generateCoverUrls
    simp [hisbn, hek, hc, hc0, olidOf, hkey]
  · intro hisbn hkey hek hc
    unfold generateCoverUrls
    simp [hisbn, hek, hc, olidOf, hkey]

/-- A record carrying only a cover id. -/
def docOnlyCover : RawDoc := { cover_i := some 12345 }

/-- A record with no identifying fields at all. -/
def docBare : RawDoc := {}

/-- Witness for claim C9 at concrete records. -/
theorem cover_url_only_id_or_nothing_witness :
    generateCoverUrls docOnlyCover = some [idCoverUrl 12345] ∧
      generateCoverUrls docBare = none :=
  ⟨(cover_url_only_id_or_nothing docOnlyCover).1 12345 rfl rfl rfl rfl (by decide),
    (cover_url_only_id_or_nothing docBare).2 rfl rfl rfl rfl⟩

theorem lookupUsage_upsert_same (rows : List UsageRow) (uid d : String) (c : Nat) :
    lookupUsage uid d (upsertUsage uid d c rows) = some c := by
  induction rows with
  | nil => simp [upsertUsage, lookupUsage]
  | cons r rs ih =>
    unfold upsertUsage
    by_cases h : r.userId = uid ∧ r.date = d
    · rw [if_pos h]
      simp [lookupUsage]
    · rw [if_neg h]
      unfold lookupUsage
      rw [if_neg h]
      exact ih

theorem lookupUsage_upsert_other (rows : List UsageRow) (uid d d' : String) (c : Nat)
    (hne : d' ≠ d) :
    lookupUsage uid d' (upsertUsage uid d c rows) = lookupUsage uid d' rows := by
  induction rows with
  | nil =>
    simp only [upsertUsage, lookupUsage]
    rw [if_neg (fun h => hne h.2.symm)]
  | cons r rs ih =>
    unfold upsertUsage
    by_cases h : r.userId = uid ∧ r.date = d
    · rw [if_pos h]
      show lookupUsage uid d' (⟨uid, d, c⟩ :: rs) = lookupUsage uid d' (r :: rs)
      have h1 : ¬ ((⟨uid, d, c⟩ : UsageRow).userId = uid ∧ (⟨uid, d, c⟩ : UsageRow).date = d') :=
        fun hx => hne hx.2.symm
      have h2 : ¬ (r.userId = uid ∧ r.date = d') :=
        fun hx => hne (h.2.symm.trans hx.2).symm
      unfold lookupUsage
      rw [if_neg h1, if_neg h2]
    · rw [if_neg h]
      unfold lookupUsage
      by_cases h2 : r.userId = uid ∧ r.date = d'
      · rw [if_pos h2, if_pos h2]
      · rw [if_neg h2, if_neg h2]
        exact ih

/-- Claim C6: against a working store, `incrementUsage(user, 4)` upserts
the `(user, today)` row to 5 and returns 5; a subsequent
`getUsageToday` on the same day returns 5, and on a different day with
no record for that day it returns 0. -/
theorem usage_increment_then_read (rows : List UsageRow) (uid d d' : String)
    (hne : d' ≠ d) (habsent : lookupUsage uid d' rows = none) :
    (runUpdateUsage rows uid d 4).1 = 5 ∧
      lookupUsage uid d (runUpdateUsage rows uid d 4).2 = some 5 ∧
      (checkDailyUsage true false (usageResp (runUpdateUsage rows uid d 4).2 uid d)).1 = 5 ∧
      (checkDailyUsage true false (usageResp (runUpdateUsage rows uid d 4).2 uid d')).1 = 0 := by
  refine ⟨rfl, ?_, ?_, ?_⟩
  · exact lookupUsage_upsert_same rows uid d 5
  · simp [checkDailyUsage, usageResp, runUpdateUsage, lookupUsage_upsert_same]
  · simp [checkDailyUsage, usageResp, runUpdateUsage,
      lookupUsage_upsert_other rows uid d d' 5 hne, habsent]

/-- Witness for claim C6: an empty store, one user, two distinct days. -/
theorem usage_increment_then_read_witness :
    (runUpdateUsage [] "u1" "2026-10-11" 4).1 = 5 ∧
      lookupUsage "u1" "2026-10-11" (runUpdateUsage [] "u1" "2026-10-11" 4).2 = some 5 ∧
      (checkDailyUsage true false
        (usageResp (runUpdateUsage [] "u1" "2026-10-11" 4).2 "u1" "2026-10-11")).1 = 5 ∧
      (checkDailyUsage true false
        (usageResp (runUpdateUsage [] "u1" "2026-10-11" 4).2 "u1" "2026-10-12")).1 = 0 :=
  usage_increment_then_read [] "u1" "2026-10-11" "2026-10-12" (by decide) rfl

/-- Claim C7: a `relation does not exist` (`42P01`) report on any call
sets the unavailable flag, and once the flag is set every call of
`checkDailyUsage`, `updateDailyUsage`, `loadChatHistory` and
`saveChatMessage` short-circuits to its no-op default — 0, the
unchanged count, the empty list, and a no-op — without attempting the
store operation, whatever the store would have answered. -/
theorem table_missing_flag_sticky_short_circuit (up : Bool) (cur : Nat)
    (r1 : StoreOutcome (Option Nat)) (r2 : StoreOutcome Unit)
    (r3 : StoreOutcome (List ChatRow)) (r4 : StoreOutcome Unit) :
    checkDailyUsage up true r1 = (0, true, false) ∧
      updateDailyUsage up true cur r2 = (cur, true, false) ∧
      loadChatHistory up true r3 = ([], true, false) ∧
      saveChatMessage up true r4 = (true, false) ∧
      checkDailyUsage true false (.err "42P01") = (0, true, true) ∧
      updateDailyUsage true false cur (.err "42P01") = (cur, true, true) ∧
      loadChatHistory true false (.err "42P01") = ([], true, true) ∧
      saveChatMessage true false (.err "42P01") = (true, true) := by
  refine ⟨?_, ?_, ?_, ?_, by decide, ?_, by decide, by decide⟩ <;>
    simp [checkDailyUsage, updateDailyUsage, loadChatHistory, saveChatMessage]

/-- The relevance condition of claim C8, stated in the words of the
claim: the reply contains the word `recommend`, or the reply contains
the full quoted-title markdown pattern (a match of
`\*\*"([^"]+)"\s+by\s+([^*]+?)\*\*`), or the user message contains the
phrase `books like`. -/
def claimedFallbackRelevant (resp userMessage : String) : Prop :=
  hasSub (lowerL resp.data) "recommend".data = true ∨
    scanP1 resp.data.length resp.data ≠ [] ∨
    hasSub (lowerL userMessage.data) "books like".data = true

instance (resp userMessage : String) : Decidable (claimedFallbackRelevant resp userMessage) := by
  unfold claimedFallbackRelevant
  infer_instance

/-- Counterexample for claim C8: the reply `see **"x` contains the
opening marker `**"` but no complete quoted-title pattern, yet the
deterministic fallback heuristic treats it as relevant — so the
claimed `if and only if` fails. -/
theorem fallback_heuristic_counterexample :
    shouldExtractFallback "see **\"x" "" = true ∧
      ¬ claimedFallbackRelevant "see **\"x" "" :=
  ⟨by decide, by decide⟩

/-- Claim C8 (amended): when the relevance-gate classifier call fails,
the gate treats the reply as relevant if and only if the lowercased
reply contains `recommend`, or the reply contains the substring `**"`
(the opening marker of the quoted-title markdown pattern only), or the
lowercased user message contains the phrase `books like`. -/
theorem fallback_heuristic_iff (env : TurnEnv) (resp userMessage : String)
    (hfail : env.classifier = none) :
    shouldExtractBooksM env.classifier resp userMessage = true ↔
      (∃ u v, lowerL resp.data = u ++ "recommend".data ++ v) ∨
      (∃ u v, resp.data = u ++ "**\"".data ++ v) ∨
      (∃ u v, lowerL userMessage.data = u ++ "books like".data ++ v) := by
  rw [hfail]
  simp only [shouldExtractBooksM, shouldExtractFallback, Bool.or_eq_true, hasSub_iff]
  exact or_assoc

/-- A turn environment whose classifier call fails. -/
def envClassifierDown : TurnEnv :=
  ⟨Except.ok "", none, ExtractorOutcome.failed, fun _ _ => none, 0, 2026⟩

/-- Witness for the amended claim C8 at a concrete reply. -/
theorem fallback_heuristic_iff_witness :
    shouldExtractBooksM envClassifierDown.classifier "I recommend Dune" "" = true :=
  (fallback_heuristic_iff envClassifierDown "I recommend Dune" "" rfl).mpr
    (Or.inl ⟨"i ".data, " dune".data, by decide⟩)

/-- The behaviour claim C2 ascribes to `loadHistory`: the 20 most recent messages of
the user, in ascending chronological order. -/
def claimedRecentHistory (rows : List ChatRow) (uid : String) : List DbMessage :=
  let sorted := (rows.filter (fun r => r.userId == uid)).insertionSort rowTsLe
  (sorted.drop (sorted.length - 20)).map rowToMessage

/-- A transcript row of user `u` with timestamp `i`. -/
def mkRow (i : Nat) : ChatRow := ⟨toString i, "u", "user", "m", none, (i : Int)⟩

/-- A stored transcript of 21 messages with ascending timestamps. -/
def store21 : List ChatRow := (List.range 21).map mkRow

/-- Counterexample for claim C2: on a transcript of 21 messages the
code returns the 20 oldest messages (ascending order then limit 20),
not the 20 most recent ones — the newest message is the omitted one. -/
theorem load_history_counterexample :
    runLoadHistory store21 "u" ≠ claimedRecentHistory store21 "u" := by decide

/-- Claim C2 (amended): `loadHistory` returns up to the first 20
messages of the user in ascending chronological order — the 20 oldest
when more than 20 exist, every omitted message being at least as new as
every returned one — and returns the empty list when the store is
unavailable. -/
theorem load_history_oldest_twenty (rows : List ChatRow) (uid : String) (up : Bool)
    (resp : StoreOutcome (List ChatRow)) :
    (loadChatHistory up true resp).1 = [] ∧
      (runLoadHistory rows uid).length ≤ 20 ∧
      (runLoadHistory rows uid).Pairwise (fun a b => a.timestamp ≤ b.timestamp) ∧
      (∀ a ∈ ((rows.filter (fun r => r.userId == uid)).insertionSort rowTsLe).take 20,
        ∀ b ∈ ((rows.filter (fun r => r.userId == uid)).insertionSort rowTsLe).drop 20,
          a.created_at ≤ b.created_at) := by
  refine ⟨by simp [loadChatHistory], ?_, ?_, ?_⟩
  · simp only [runLoadHistory, loadChatHistory, historyQuery]
    rw [if_neg (by simp)]
    simp
  · simp only [runLoadHistory, loadChatHistory, historyQuery]
    rw [if_neg (by simp)]
    have hsorted : (((rows.filter (fun r => r.userId == uid)).insertionSort
        rowTsLe).take 20).Pairwise rowTsLe :=
      List.Pairwise.sublist (List.take_sublist 20 _) (List.sorted_insertionSort rowTsLe _)
    exact List.Pairwise.map rowToMessage (fun a b h => h) hsorted
  · have hsplit : ((((rows.filter (fun r => r.userId == uid)).insertionSort
        rowTsLe).take 20) ++ (((rows.filter (fun r => r.userId == uid)).insertionSort
        rowTsLe).drop 20)).Pairwise rowTsLe := by
      rw [List.take_append_drop]
      exact List.sorted_insertionSort rowTsLe (rows.filter (fun r => r.userId == uid))
    exact fun a ha b hb => (List.pairwise_append.mp hsplit).2.2 a ha b hb

/-- Witness for the amended claim C2 at the concrete 21-row store. -/
theorem load_history_oldest_twenty_witness :
    (runLoadHistory store21 "u").length ≤ 20 ∧
      (mkRow 0).created_at ≤ (mkRow 20).created_at :=
  ⟨(load_history_oldest_twenty store21 "u" true (.ok [])).2.1,
    (load_history_oldest_twenty store21 "u" true (.ok [])).2.2.2 (mkRow 0) (by decide)
      (mkRow 20) (by decide)⟩

theorem docFilter_cover (cy : Int) (d : RawDoc) (h : docFilter cy d = true) :
    truthyNat d.cover_i = true := by
  unfold docFilter at h
  exact (Bool.and_eq_true .. ▸ h).1 |> fun hx => (Bool.and_eq_true .. ▸ hx).1

theorem docToChatBook_cover (d : RawDoc) (h : truthyNat d.cover_i = true) :
    (docToChatBook d).cover = some (chatCoverL (d.cover_i.getD 0)) := by
  simp [docToChatBook, h]

theorem mem_search_cover (cy : Int) (resp : Nat → StrategyResp) (b : Book)
    (hb : b ∈ (searchBooksFromOpenLibrary cy resp).1) : b.cover ≠ none := by
  simp only [searchBooksFromOpenLibrary, List.mem_map] at hb
  obtain ⟨d, hd, rfl⟩ := hb
  have hd2 : d ∈ ((pickDocs resp).1.filter (docFilter cy)).insertionSort docSortLe :=
    List.mem_of_mem_take hd
  have hd3 : d ∈ (pickDocs resp).1.filter (docFilter cy) :=
    (List.mem_insertionSort docSortLe).mp hd2
  have hfil : docFilter cy d = true := (List.mem_filter.mp hd3).2
  rw [docToChatBook_cover d (docFilter_cover cy d hfil)]
  exact Option.some_ne_none _

theorem pickDocs_cases (resp : Nat → StrategyResp) :
    (pickDocs resp).1 = [] ∨
      ∃ i ds, resp i = some ds ∧ (pickDocs resp).1 = ds := by
  unfold pickDocs
  rcases h0 : resp 0 with _ | ds0
  · rcases h1 : resp 1 with _ | ds1
    · rcases h2 : resp 2 with _ | ds2
      · simp
      · rcases ds2 with _ | ⟨d, ds⟩
        · simp
        · exact Or.inr ⟨2, d :: ds, h2, by simp⟩
    · rcases ds1 with _ | ⟨d, ds⟩
      · rcases h2 : resp 2 with _ | ds2
        · simp
        · rcases ds2 with _ | ⟨d2, ds2'⟩
          · simp
          · exact Or.inr ⟨2, d2 :: ds2', h2, by simp⟩
      · exact Or.inr ⟨1, d :: ds, h1, by simp⟩
  · rcases ds0 with _ | ⟨d, ds⟩
    · rcases h1 : resp 1 with _ | ds1
      · rcases h2 : resp 2 with _ | ds2
        · simp
        · rcases ds2 with _ | ⟨d2, ds2'⟩
          · simp
          · exact Or.inr ⟨2, d2 :: ds2', h2, by simp⟩
      · rcases ds1 with _ | ⟨d1, ds1'⟩
        · rcases h2 : resp 2 with _ | ds2
          · simp
          · rcases ds2 with _ | ⟨d2, ds2'⟩
            · simp
            · exact Or.inr ⟨2, d2 :: ds2', h2, by simp⟩
        · exact Or.inr ⟨1, d1 :: ds1', h1, by simp⟩
    · exact Or.inr ⟨0, d :: ds, h0, by simp⟩

theorem search_no_cover_empty (cy : Int) (resp : Nat → StrategyResp)
    (h : ∀ i ds d, resp i = some ds → d ∈ ds → truthyNat d.cover_i = false) :
    (searchBooksFromOpenLibrary cy resp).1 = [] := by
  have hfil : (pickDocs resp).1.filter (docFilter cy) = [] := by
    rw [List.filter_eq_nil_iff]
    intro d hd
    rcases pickDocs_cases resp with hnil | ⟨i, ds, hds, hpick⟩
    · rw [hnil] at hd
      cases hd
    · rw [hpick] at hd
      have hcov := h i ds d hds hd
      intro hfl
      rw [docFilter_cover cy d hfl] at hcov
      cases hcov
  simp [searchBooksFromOpenLibrary, hfil]

theorem mem_extraction_cover (env : TurnEnv) (text userMessage : String) (b : Book)
    (hb : b ∈ (extractAndSearchBooks env text userMessage).books) : b.cover ≠ none := by
  unfold extractAndSearchBooks at hb
  by_cases hg : shouldExtractBooksM env.classifier text userMessage = false
  · rw [if_pos hg] at hb
    cases hb
  · rw [if_neg hg] at hb
    replace hb : b ∈ (catLists ((((extractCandidates env text).take 3).map
        (fun q => searchBooksFromOpenLibrary env.currentYear (env.catalog q))).map
        (fun r => r.1.take 1))).take 3 := hb
    have hb2 := List.mem_of_mem_take hb
    rw [mem_catLists] at hb2
    obtain ⟨l, hl, hbl⟩ := hb2
    rw [List.mem_map] at hl
    obtain ⟨r, hr, rfl⟩ := hl
    rw [List.mem_map] at hr
    obtain ⟨q, _, rfl⟩ := hr
    exact mem_search_cover env.currentYear (env.catalog q) b (List.mem_of_mem_take hbl)

/-- Claim C10: the catalog search of the chat pipeline discards every
record that lacks a truthy numeric cover id, or whose (truthy)
first-publish year lies more than 10 years before the current year, or
whose title has length at most 2; consequently every book it returns —
and every book attached to a message appended by a turn — has a
non-null cover, and a candidate whose hits all lack cover ids
contributes no book even though its search succeeded. -/
theorem chat_search_filter_and_covers :
    (∀ (cy : Int) (d : RawDoc),
      (truthyNat d.cover_i = false ∨
        (∃ y, d.first_publish_year = some y ∧ y ≠ 0 ∧ y < cy - 10) ∨
        (∃ t, d.title = some t ∧ t.length ≤ 2)) → docFilter cy d = false) ∧
      (∀ (cy : Int) (resp : Nat → StrategyResp) (b : Book),
        b ∈ (searchBooksFromOpenLibrary cy resp).1 → b.cover ≠ none) ∧
      (∀ (cy : Int) (resp : Nat → StrategyResp),
        (∀ i ds d, resp i = some ds → d ∈ ds → truthyNat d.cover_i = false) →
        (searchBooksFromOpenLibrary cy resp).1 = []) ∧
      (∀ (env : TurnEnv) (st : ChatState) (m : Message) (bs : List Book) (b : Book),
        m ∈ (handleSendMessage env st).messages → m ∉ st.messages →
        m.books = some bs → b ∈ bs → b.cover ≠ none) := by
  refine ⟨?_, mem_search_cover, search_no_cover_empty, ?_⟩
  · intro cy d h
    rcases h with h | ⟨y, hy, hy0, hyr⟩ | ⟨t, ht, htl⟩
    · simp [docFilter, h]
    · have h2 : ¬ (cy - 10 ≤ y) := by omega
      simp [docFilter, hy, hy0, h2]
    · have h2 : ¬ (2 < t.length) := by omega
      simp [docFilter, ht, h2]
  · intro env st m bs b hm hnot hbooks hb
    unfold handleSendMessage at hm
    by_cases h1 : jsTrimS st.input = "" ∨ st.userPresent = false ∨ st.isLoading = true
    · rw [if_pos h1] at hm
      exact absurd hm hnot
    · rw [if_neg h1] at hm
      by_cases h2 : DAILY_LIMIT ≤ st.dailyUsage
      · rw [if_pos h2] at hm
        exact absurd hm hnot
      · rw [if_neg h2] at hm
        replace hm : m ∈ st.messages ++ [mkUserMsg env st, mkAssistantMsg env st] := hm
        rw [List.mem_append] at hm
        rcases hm with hm | hm
        · exact absurd hm hnot
        · simp only [List.mem_cons, List.not_mem_nil, or_false] at hm
          rcases hm with rfl | rfl
          · simp [mkUserMsg] at hbooks
          · replace hbooks :
                (if 0 < (extractAndSearchBooks env (turnResponse env)
                    (mkUserMsg env st).content).books.length then
                  some (extractAndSearchBooks env (turnResponse env)
                    (mkUserMsg env st).content).books
                else none) = some bs := hbooks
            split at hbooks
            · cases hbooks
              exact mem_extraction_cover env (turnResponse env) (mkUserMsg env st).content b hb
            · cases hbooks

/-- A record with a usable title and year but no cover id. -/
def docNoCover : RawDoc := { title := some "Good Title", first_publish_year := some 2024 }

/-- Witness for claim C10: a coverless record is discarded, and a query
whose strategies all fail resolves to no books. -/
theorem chat_search_filter_and_covers_witness :
    docFilter 2026 docNoCover = false ∧
      (searchBooksFromOpenLibrary 2026 (fun _ => none)).1 = [] :=
  ⟨chat_search_filter_and_covers.1 2026 docNoCover (Or.inl rfl),
    chat_search_filter_and_covers.2.2.1 2026 (fun _ => none)
      (fun _ _ _ h _ => nomatch h)⟩

/-- Claim C5: when the current daily usage has reached the cap
(`DAILY_LIMIT = 10`), submitting a non-empty message as an
authenticated user performs no completion call at all, produces a
user-visible rejection notice, and appends nothing to the transcript
(in memory or persisted). -/
theorem cap_reached_rejects (env : TurnEnv) (st : ChatState)
    (h1 : jsTrimS st.input ≠ "") (h2 : st.userPresent = true) (h3 : st.isLoading = false)
    (h4 : DAILY_LIMIT ≤ st.dailyUsage) :
    (handleSendMessage env st).toasts = 1 ∧
      (handleSendMessage env st).completionAttempts = 0 ∧
      (handleSendMessage env st).extractionAttempts = 0 ∧
      (handleSendMessage env st).catalogFetches = 0 ∧
      (handleSendMessage env st).messages = st.messages ∧
      (handleSendMessage env st).saved = [] := by
  have hc : ¬ (jsTrimS st.input = "" ∨ st.userPresent = false ∨ st.isLoading = true) := by
    simp [h1, h2, h3]
  unfold handleSendMessage
  rw [if_neg hc, if_pos h4]
  exact ⟨rfl, rfl, rfl, rfl, rfl, rfl⟩

/-- A state at the daily cap with a pending non-empty input. -/
def stAtCap : ChatState := ⟨[], "hello", false, 10, true⟩

/-- Witness for claim C5 at a concrete capped state. -/
theorem cap_reached_rejects_witness :
    (handleSendMessage envGateNo stAtCap).toasts = 1 ∧
      (handleSendMessage envGateNo stAtCap).completionAttempts = 0 ∧
      (handleSendMessage envGateNo stAtCap).extractionAttempts = 0 ∧
      (handleSendMessage envGateNo stAtCap).catalogFetches = 0 ∧
      (handleSendMessage envGateNo stAtCap).messages = stAtCap.messages ∧
      (handleSendMessage envGateNo stAtCap).saved = [] :=
  cap_reached_rejects envGateNo stAtCap (by decide) rfl rfl (by decide)

/-- A turn environment in which every upstream Gemini call fails with a
network error, and the catalog is unreachable. -/
def envDown : TurnEnv :=
  ⟨Except.error "network error", none, ExtractorOutcome.failed, fun _ _ => none, 0, 2026⟩

/-- A fresh state whose pending input mentions `books like`. -/
def stBooksLike : ChatState := ⟨[], "books like Dune", false, 0, true⟩

/-- Counterexample for claim C1: with the Completion Client failing,
the turn synthesizes the typed fallback response but does not skip
extraction — the Extraction Engine still runs on the fallback text and
attempts two completion calls (the relevance gate fires on the user
message `books like Dune`), contradicting `no extraction calls are made
for that turn`. -/
theorem completion_failure_counterexample :
    envDown.completion = Except.error "network error" ∧
      (handleSendMessage envDown stBooksLike).extractionAttempts = 2 :=
  ⟨rfl, by decide⟩

/-- Claim C1 (amended): when the Completion Client call fails, the
Conversation Controller synthesizes a typed fallback assistant message
(whose content is the typed fallback text for the error) and appends it
together with the user message, but it does not skip extraction: the
Extraction Engine is run on the fallback text and attempts at least one
completion call that turn. -/
theorem completion_failure_fallback_still_extracts (env : TurnEnv) (st : ChatState)
    (e : String) (h1 : jsTrimS st.input ≠ "") (h2 : st.userPresent = true)
    (h3 : st.isLoading = false) (h4 : st.dailyUsage < DAILY_LIMIT)
    (h5 : env.completion = Except.error e) :
    (handleSendMessage env st).messages =
      st.messages ++ [mkUserMsg env st, mkAssistantMsg env st] ∧
      (mkAssistantMsg env st).content = geminiFallback e ∧
      1 ≤ (handleSendMessage env st).extractionAttempts := by
  have hc : ¬ (jsTrimS st.input = "" ∨ st.userPresent = false ∨ st.isLoading = true) := by
    simp [h1, h2, h3]
  have hc2 : ¬ DAILY_LIMIT ≤ st.dailyUsage := by omega
  unfold handleSendMessage
  rw [if_neg hc, if_neg hc2]
  refine ⟨rfl, ?_, ?_⟩
  · show turnResponse env = geminiFallback e
    simp [turnResponse, h5]
  · show 1 ≤ (extractAndSearchBooks env (turnResponse env) (mkUserMsg env st).content).attempts
    unfold extractAndSearchBooks
    split
    · exact Nat.le_refl 1
    · show (1 : Nat) ≤ 2
      omega

/-- Witness for the amended claim C1 at the concrete failing turn. -/
theorem completion_failure_fallback_still_extracts_witness :
    (handleSendMessage envDown stBooksLike).messages =
      stBooksLike.messages ++ [mkUserMsg envDown stBooksLike, mkAssistantMsg envDown stBooksLike] ∧
      (mkAssistantMsg envDown stBooksLike).content = geminiFallback "network error" ∧
      1 ≤ (handleSendMessage envDown stBooksLike).extractionAttempts :=
  completion_failure_fallback_still_extracts envDown stBooksLike "network error"
    (by decide) rfl rfl (by decide) rfl
